import Mathlib

/-!
Verification of the float-chat-prototype data-processing pipeline.

This file gives a shallow embedding, in Lean 4, of the pure logic of
`src/lib/data-processing/netcdf-processor.ts` (the NetCDF filename parser,
the ocean-region lookup, the query classifier and parameter extractor, the
response generator, the mock similarity search, and the chat-history
replay) together with the request handlers of `src/app/api/chat/route.ts`,
and proves the behavioural properties stated in the specification.

Modelling conventions:
  - JavaScript strings are `String`; character-level scanning is done on
    `List Char` (`String.data`).
  - JavaScript numbers appearing in the region lookup and in data rows are
    modelled as `Rat` (every input relevant here is exact).
  - JavaScript regular-expression search (`String.match`, unanchored) is
    embedded as a leftmost scan (`scanFirst`) of a per-position matcher;
    for each of the four concrete patterns in the source, greedy
    backtracking is deterministic, and the per-position matchers implement
    exactly that deterministic behaviour.
  - Database access is modelled by passing the table contents (a `List` of
    row structures) explicitly; `order by` is an `insertionSort`.
  - Fallible operations return `Except String`.
-/

/-- Boolean test that `needle` occurs at the start of `hay`
    (character-by-character; used to embed JS substring search). -/
def listStartsWith : List Char → List Char → Bool
  | [], _ => true
  | _ :: _, [] => false
  | a :: ra, b :: rb => a == b && listStartsWith ra rb

/-- Boolean test that `needle` occurs somewhere inside `hay`; embeds
    JavaScript `hay.includes(needle)` at the character level. -/
def listContainsSeq (hay needle : List Char) : Bool :=
  match hay with
  | [] => needle.isEmpty
  | _ :: t => listStartsWith needle hay || listContainsSeq t needle

/-- Embeds JavaScript `s.includes(sub)`. -/
def jsIncludes (s sub : String) : Bool :=
  listContainsSeq s.toList sub.toList

/-- Embeds JavaScript `s.toLowerCase()` (ASCII range, which is all the
    classifier keywords need). -/
def jsToLowerCase (s : String) : String :=
  String.mk (s.toList.map Char.toLower)

/-- Numeric value of a digit string; embeds `Number.parseInt` on a string
    of decimal digits (the only shape it is applied to in the source). -/
def parseDigits (l : List Char) : Nat :=
  l.foldl (fun n c => 10 * n + (c.toNat - '0'.toNat)) 0

/-- Leftmost-position scan of a per-position matcher: embeds the way an
    unanchored JavaScript regular expression tries each start position of
    the subject string from the left. -/
def scanFirst {α : Type} (f : List Char → Option α) : List Char → Option α
  | [] => f []
  | c :: rest =>
    match f (c :: rest) with
    | some r => some r
    | none => scanFirst f rest

/-- Truthiness of a JS string-or-undefined value (`undefined` and `""` are
    falsy). -/
def jsTruthy : Option String → Bool
  | none => false
  | some s => !(s == "")

/-- JavaScript `a || b` on string-or-undefined values. -/
def jsOrStr (a b : Option String) : Option String :=
  match a with
  | some s => if s == "" then b else some s
  | none => b

/-- JavaScript `a || b` on number-or-undefined values (`undefined` and `0`
    are falsy). -/
def jsOrRat (a b : Option Rat) : Option Rat :=
  match a with
  | some x => if x == 0 then b else some x
  | none => b

/-- Decimal rendering of `x.toFixed(d)`: round to `d` decimal places and
    print with a fixed-width fraction part. The source only applies it to
    data-row numbers; rounding is modelled as round-to-nearest. -/
def jsToFixed (x : Rat) (d : Nat) : String :=
  let m : Int := round (x * ((10 : Rat) ^ d))
  let p : Nat := 10 ^ d
  let n : Nat := m.natAbs
  let ip : Nat := n / p
  let fp : Nat := n % p
  let fpDigits : String := toString fp
  let fpStr : String := String.mk (List.replicate (d - fpDigits.length) '0') ++ fpDigits
  (if m < 0 then "-" else "") ++ toString ip ++ (if d == 0 then "" else "." ++ fpStr)

/-- Rendering of `v?.toFixed(d)` inside a template string: an undefined
    value renders as the text "undefined". -/
def jsOptToFixed (o : Option Rat) (d : Nat) : String :=
  match o with
  | some x => jsToFixed x d
  | none => "undefined"

/-- Textual form of a JS number in a template string. Integral values print
    as integers; non-integral values are rendered via the textual form of
    `Rat` (a modelling simplification, exercised by no theorem below). -/
def ratToJsString (x : Rat) : String :=
  if x.den == 1 then toString x.num else toString x

/-- Embeds `Math.max(...list)` followed by template interpolation;
    `Math.max()` of an empty spread is `-Infinity`. -/
def jsNumListMax (l : List Rat) : String :=
  match l with
  | [] => "-Infinity"
  | x :: xs => ratToJsString (xs.foldl (fun a b => max a b) x)

/-- Embeds `new Date(s).toLocaleDateString()` where `s` is a stored date
    string: the locale rendering is modelled as the stored string itself;
    an undefined input renders as JavaScript's "Invalid Date". -/
def jsLocaleDateString (o : Option String) : String :=
  match o with
  | some s => s
  | none => "Invalid Date"

namespace NetCDFProcessor

/-- Per-position matcher for the filename pattern `R(\d+)_(\d+)\.nc` of
    `NetCDFProcessor.processNetCDFFile` (netcdf-processor.ts line 54):
    a literal `R`, a maximal nonempty digit run, `_`, a maximal nonempty
    digit run, then `.nc`. Greedy backtracking is deterministic here
    because a digit run can only be followed by the required non-digit
    delimiter, so the maximal run is the only candidate. Returns the two
    capture groups. -/
def matchNetCDFAt (l : List Char) : Option (List Char × List Char) :=
  match l with
  | [] => none
  | c :: rest =>
    if c = 'R' then
      let d1 := rest.takeWhile Char.isDigit
      let rest1 := rest.dropWhile Char.isDigit
      if d1 = [] then none
      else
        match rest1 with
        | [] => none
        | c1 :: rest2 =>
          if c1 = '_' then
            let d2 := rest2.takeWhile Char.isDigit
            let rest3 := rest2.dropWhile Char.isDigit
            if d2 = [] then none
            else
              match rest3 with
              | a :: b :: c2 :: _ =>
                if a = '.' ∧ b = 'n' ∧ c2 = 'c' then some (d1, d2) else none
              | _ => none
          else none
    else none

/-- Embeds `NetCDFProcessor.processNetCDFFile` (netcdf-processor.ts lines
    47-76), restricted to its deterministic outcome: the float id and the
    cycle number extracted from the filename, or the thrown error message.
    The synthetic profile fields (random jitter around a fixed location,
    generated measurement lists) depend on `Math.random()` and are not part
    of any claim, so they are not modelled. -/
def processNetCDFFile (filename : String) : Except String (String × Nat) :=
  match scanFirst matchNetCDFAt filename.toList with
  | none => Except.error ("Invalid NetCDF filename format: " ++ filename)
  | some (d1, d2) => Except.ok (String.mk d1, parseDigits d2)

/-- Declarative reading of "the filename matches `R<digits>_<digits>.nc`"
    (unanchored, as JavaScript `String.match` is): some decomposition of
    the character list exhibits the literal `R`, a nonempty digit group, a
    `_`, a nonempty digit group, and the literal `.nc`. -/
def NetCDFNamePattern (l : List Char) : Prop :=
  ∃ pre d1 d2 suf,
    l = pre ++ 'R' :: (d1 ++ '_' :: (d2 ++ '.' :: 'n' :: 'c' :: suf)) ∧
    d1 ≠ [] ∧ d2 ≠ [] ∧
    (∀ c ∈ d1, c.isDigit = true) ∧ (∀ c ∈ d2, c.isDigit = true)

end NetCDFProcessor

namespace VectorEmbeddingsGenerator

/-- Embeds `VectorEmbeddingsGenerator.getOceanRegion` (netcdf-processor.ts
    lines 494-503). -/
def getOceanRegion (lat lon : Rat) : String :=
  if 0 ≤ lat ∧ lat ≤ 30 ∧ 40 ≤ lon ∧ lon ≤ 100 then "Arabian Sea"
  else if -30 ≤ lat ∧ lat ≤ 30 ∧ 20 ≤ lon ∧ lon ≤ 120 then "Indian Ocean"
  else if -10 ≤ lat ∧ lat ≤ 30 ∧ 90 ≤ lon ∧ lon ≤ 120 then "Bay of Bengal"
  else "Indian Ocean region"

/-- Row of the `data_embeddings` table, with the fields the search path
    reads. The mock 1536-entry random vector is opaque to every code path
    modelled here and is omitted. -/
structure EmbeddingRow where
  content_type : String
  content_id : String
  content_text : String
  created_at : Nat

/-- Recency ordering used by `.order("created_at", \x7b ascending: false \x7d)`:
    row `a` comes no later than row `b` when `a` was created no earlier. -/
def recencyGE (a b : EmbeddingRow) : Prop :=
  b.created_at ≤ a.created_at

instance : DecidableRel recencyGE :=
  fun a b => inferInstanceAs (Decidable (b.created_at ≤ a.created_at))

instance : IsTotal EmbeddingRow recencyGE :=
  ⟨fun a b => (Nat.le_total b.created_at a.created_at).imp id id⟩

instance : IsTrans EmbeddingRow recencyGE :=
  ⟨fun _ _ _ h1 h2 => Nat.le_trans h2 h1⟩

/-- Embeds `VectorEmbeddingsGenerator.searchSimilarContent`
    (netcdf-processor.ts lines 537-561): a recency-ordered fetch of the
    stored embedding rows up to `limit` (default 5). The query argument is
    received but never read, exactly as in the source. The store is passed
    explicitly; the store-error path (which returns `[]`) is a database
    failure with no counterpart in the explicit-store model. -/
def searchSimilarContent (store : List EmbeddingRow) (query : String)
    (limit : Nat := 5) : List EmbeddingRow :=
  (List.insertionSort recencyGE store).take limit

end VectorEmbeddingsGenerator

namespace ChatProcessor

/-- Embeds `ChatProcessor.getOceanRegion` (netcdf-processor.ts lines
    946-955); textually identical to the Embedding Stub's copy. -/
def getOceanRegion (lat lon : Rat) : String :=
  if 0 ≤ lat ∧ lat ≤ 30 ∧ 40 ≤ lon ∧ lon ≤ 100 then "Arabian Sea"
  else if -30 ≤ lat ∧ lat ≤ 30 ∧ 20 ≤ lon ∧ lon ≤ 120 then "Indian Ocean"
  else if -10 ≤ lat ∧ lat ≤ 30 ∧ 90 ≤ lon ∧ lon ≤ 120 then "Bay of Bengal"
  else "Indian Ocean region"

/-- Region lookup applied to possibly-undefined coordinates, as in
    `getOceanRegion(profileData.latitude, profileData.longitude)` when a
    row lacks the field: in JavaScript every range comparison against
    `undefined` is false, so the default branch is reached. -/
def getOceanRegionOpt (lat lon : Option Rat) : String :=
  match lat, lon with
  | some la, some lo => getOceanRegion la lo
  | _, _ => "Indian Ocean region"

/-- Parameters extracted from a query by
    `ChatProcessor.extractParameters`. -/
structure QueryParameters where
  floatId : Option String
  depth : Option Nat
  date : Option String
deriving Repr, DecidableEq

/-- Result of `ChatProcessor.analyzeQuery`. -/
structure QueryAnalysis where
  type : String
  parameters : QueryParameters
  visualizations : List String
  dataNeeded : List String
deriving Repr, DecidableEq

/-- Per-position matcher for `/float\s+(\d+)/i` (netcdf-processor.ts line
    723): the word `float` case-insensitively, at least one whitespace
    character, then a maximal nonempty digit run (the capture group). -/
def matchFloatWordAt (l : List Char) : Option (List Char) :=
  match l with
  | c1 :: c2 :: c3 :: c4 :: c5 :: rest =>
    if c1.toLower = 'f' ∧ c2.toLower = 'l' ∧ c3.toLower = 'o' ∧
       c4.toLower = 'a' ∧ c5.toLower = 't' then
      let ws := rest.takeWhile Char.isWhitespace
      let rest1 := rest.dropWhile Char.isWhitespace
      if ws.isEmpty then none
      else
        let d := rest1.takeWhile Char.isDigit
        if d.isEmpty then none else some d
    else none
  | _ => none

/-- Per-position matcher for `/(\d{7})/` (netcdf-processor.ts line 723):
    seven consecutive digits starting here. -/
def matchSevenDigitsAt (l : List Char) : Option (List Char) :=
  let d := l.take 7
  if d.length == 7 && d.all Char.isDigit then some d else none

/-- Per-position matcher for `/(\d+)\s*(?:m|meter|metre)/i`
    (netcdf-processor.ts line 729): a maximal nonempty digit run (the
    capture group), any run of whitespace, then the letter `m` (the `m`
    alternative always succeeds first, so the longer unit spellings are
    never consulted). -/
def matchDepthAt (l : List Char) : Option (List Char) :=
  let d := l.takeWhile Char.isDigit
  let rest := l.dropWhile Char.isDigit
  if d.isEmpty then none
  else
    match rest.dropWhile Char.isWhitespace with
    | m :: _ => if m.toLower = 'm' then some d else none
    | [] => none

/-- One-or-two digits followed by a `-` or `/` separator, preferring the
    two-digit reading, as the backtracking of one-or-two digits before a
    separator class does. -/
def digitsOneTwoSep (l : List Char) : Option (List Char × Char × List Char) :=
  match l with
  | a :: b :: s :: rest =>
    if a.isDigit && b.isDigit && (s == '-' || s == '/') then some ([a, b], s, rest)
    else if a.isDigit && (b == '-' || b == '/') then some ([a], b, s :: rest)
    else none
  | [a, b] => if a.isDigit && (b == '-' || b == '/') then some ([a], b, []) else none
  | _ => none

/-- Trailing one-or-two digits, preferring two, as the final greedy
    `\d\x7b1,2\x7d` does. -/
def digitsOneTwoEnd (l : List Char) : Option (List Char) :=
  match l with
  | a :: b :: _ =>
    if a.isDigit && b.isDigit then some [a, b]
    else if a.isDigit then some [a] else none
  | [a] => if a.isDigit then some [a] else none
  | [] => none

/-- Per-position matcher for the date pattern of netcdf-processor.ts line
    735: four digits, a `-` or `/` separator, one-or-two digits, another
    separator, one-or-two digits; the capture group is the whole matched
    span. -/
def matchDateAt (l : List Char) : Option (List Char) :=
  let d4 := l.take 4
  if d4.length == 4 && d4.all Char.isDigit then
    match l.drop 4 with
    | s1 :: r1 =>
      if s1 == '-' || s1 == '/' then
        match digitsOneTwoSep r1 with
        | some (d2, s2, r2) =>
          match digitsOneTwoEnd r2 with
          | some d3 => some (d4 ++ s1 :: (d2 ++ s2 :: d3))
          | none => none
        | none => none
      else none
    | [] => none
  else none

/-- Embeds `ChatProcessor.extractParameters` (netcdf-processor.ts lines
    719-741): the float-id field comes from `/float\s+(\d+)/i` when that
    matches and from `/(\d\x7b7\x7d)/` otherwise; the depth field from the
    digits of the depth-with-unit pattern, parsed; the date field from the
    date-like pattern. -/
def extractParameters (query : String) : QueryParameters :=
  let chars := query.toList
  let floatId :=
    match scanFirst matchFloatWordAt chars with
    | some d => some (String.mk d)
    | none => (scanFirst matchSevenDigitsAt chars).map String.mk
  let depth := (scanFirst matchDepthAt chars).map parseDigits
  let date := (scanFirst matchDateAt chars).map String.mk
  ⟨floatId, depth, date⟩

/-- Embeds `ChatProcessor.analyzeQuery` (netcdf-processor.ts lines
    644-714): an ordered chain of keyword-presence tests on the lowercased
    query; the first matching rule wins. -/
def analyzeQuery (query : String) : QueryAnalysis :=
  let lowerQuery := jsToLowerCase query
  if jsIncludes lowerQuery "temperature" || jsIncludes lowerQuery "temp" then
    ⟨"temperature_query", extractParameters query,
      ["temperature_profile", "depth_chart"], ["depth_measurements"]⟩
  else if jsIncludes lowerQuery "salinity" || jsIncludes lowerQuery "salt" then
    ⟨"salinity_query", extractParameters query,
      ["salinity_profile", "depth_chart"], ["depth_measurements"]⟩
  else if jsIncludes lowerQuery "oxygen" || jsIncludes lowerQuery "nitrate" ||
      jsIncludes lowerQuery "ph" || jsIncludes lowerQuery "chlorophyll" then
    ⟨"bgc_query", extractParameters query,
      ["bgc_profile", "oxygen_chart"], ["bgc_measurements"]⟩
  else if jsIncludes lowerQuery "float" &&
      (jsIncludes lowerQuery "location" || jsIncludes lowerQuery "position") then
    ⟨"float_location_query", extractParameters query,
      ["map", "trajectory"], ["argo_floats", "ocean_profiles"]⟩
  else if jsIncludes lowerQuery "compare" || jsIncludes lowerQuery "difference" ||
      jsIncludes lowerQuery "vs" then
    ⟨"comparison_query", extractParameters query,
      ["comparison_chart", "overlay_plot"], ["depth_measurements", "bgc_measurements"]⟩
  else
    ⟨"general_query", extractParameters query,
      ["summary_chart"], ["ocean_profiles", "depth_measurements"]⟩

end ChatProcessor

namespace ChatProcessor

/-- Sub-row of a data row joined from `argo_floats`. -/
structure ArgoFloatsJoin where
  float_id : String
deriving Repr, DecidableEq

/-- Depth-measurement entry as read by the temperature response. -/
structure MeasurementRow where
  depth_meters : Rat
  temperature_celsius : Option Rat
deriving Repr, DecidableEq

/-- Heterogeneous retrieved-data row as the response generators read it:
    rows coming from different tables simply lack (carry `none` in) the
    fields the other tables would provide, mirroring `undefined` field
    access on JavaScript objects. -/
structure DataRow where
  float_id : Option String
  argo_floats : Option ArgoFloatsJoin
  depth_measurements : Option (List MeasurementRow)
  latitude : Option Rat
  longitude : Option Rat
  deployment_latitude : Option Rat
  deployment_longitude : Option Rat
  profile_date : Option String
  status : Option String
  last_transmission : Option String

/-- Fallback text of the temperature generator when no per-float profile
    can be produced (netcdf-processor.ts line 859). -/
def temperatureFallbackMessage : String :=
  "I found temperature data from recent ARGO profiles. The data shows typical tropical Indian Ocean characteristics with warm surface waters (28-29°C) decreasing to about 4°C at 2000m depth. Would you like me to show you a specific float's temperature profile?"

/-- Embeds `ChatProcessor.generateTemperatureResponse`
    (netcdf-processor.ts lines 834-860). -/
def generateTemperatureResponse (query : String) (analysis : QueryAnalysis)
    (data : List DataRow) : String :=
  if data.length == 0 then
    "I don't have temperature data available for your query. Please try asking about a specific ARGO float ID or check if the data has been processed."
  else if jsTruthy analysis.parameters.floatId then
    let floatId := analysis.parameters.floatId.getD ""
    match data.find? (fun d =>
        d.float_id == some floatId ||
        (match d.argo_floats with
         | some af => af.float_id == floatId
         | none => false)) with
    | some profileData =>
      match profileData.depth_measurements with
      | some measurements =>
        let surfaceTemp :=
          (measurements.find? (fun m => decide (m.depth_meters ≤ 10))).bind
            (fun m => m.temperature_celsius)
        let deepTemp := measurements.getLast?.bind (fun m => m.temperature_celsius)
        let maxDepth := jsNumListMax (measurements.map (fun m => m.depth_meters))
        "Temperature profile for ARGO float " ++ floatId ++ ":\n\n" ++
        "• Surface temperature: " ++ jsOptToFixed surfaceTemp 1 ++ "°C\n" ++
        "• Deep temperature: " ++ jsOptToFixed deepTemp 1 ++ "°C at " ++ maxDepth ++ "m\n" ++
        "• Profile shows typical " ++
          getOceanRegionOpt profileData.latitude profileData.longitude ++
          " thermal structure\n" ++
        "• Data collected on " ++ jsLocaleDateString profileData.profile_date ++ "\n\n" ++
        "The temperature decreases with depth, showing the typical thermocline structure of tropical waters."
      | none => temperatureFallbackMessage
    | none => temperatureFallbackMessage
  else temperatureFallbackMessage

/-- Embeds `ChatProcessor.generateSalinityResponse` (netcdf-processor.ts
    lines 865-871). -/
def generateSalinityResponse (query : String) (analysis : QueryAnalysis)
    (data : List DataRow) : String :=
  if data.length == 0 then
    "I don't have salinity data available for your query. Please specify an ARGO float ID or check if the data has been processed."
  else
    "Salinity data from ARGO floats shows typical Arabian Sea characteristics with surface values around 34.8-35.2 PSU. The salinity profile indicates the influence of high evaporation rates in this region, with a subsurface salinity maximum around 100-200m depth."

/-- Embeds `ChatProcessor.generateBGCResponse` (netcdf-processor.ts lines
    876-889). -/
def generateBGCResponse (query : String) (analysis : QueryAnalysis)
    (data : List DataRow) : String :=
  if data.length == 0 then
    "I don't have biogeochemical data available for your query. BGC data is available from select ARGO floats with biogeochemical sensors."
  else
    "Biogeochemical data shows interesting patterns:\n\n" ++
    "• Oxygen: High surface concentrations (220+ μmol/kg) decreasing to minimum values around 500m depth\n" ++
    "• Nitrate: Low surface values increasing with depth, typical of nutrient cycling\n" ++
    "• pH: Surface values around 8.1 decreasing slightly with depth\n" ++
    "• Chlorophyll: Maximum concentrations in the upper 100m where photosynthesis occurs\n\n" ++
    "This data reveals the complex biogeochemical processes in the Indian Ocean."

/-- Embeds `ChatProcessor.generateLocationResponse` (netcdf-processor.ts
    lines 894-916). -/
def generateLocationResponse (query : String) (analysis : QueryAnalysis)
    (data : List DataRow) : String :=
  if data.length == 0 then
    "I don't have location data for the requested float. Please check the float ID or try a different query."
  else
    match data.find? (fun d => jsTruthy d.float_id || d.argo_floats.isSome) with
    | some floatData =>
      let lat := jsOrRat floatData.latitude floatData.deployment_latitude
      let lon := jsOrRat floatData.longitude floatData.deployment_longitude
      let region := getOceanRegionOpt lat lon
      "ARGO float location information:\n\n" ++
      "• Current/Last position: " ++ jsOptToFixed lat 2 ++ "°N, " ++
        jsOptToFixed lon 2 ++ "°E\n" ++
      "• Region: " ++ region ++ "\n" ++
      "• Status: " ++ (jsOrStr floatData.status (some "Active")).getD "undefined" ++ "\n" ++
      "• Last transmission: " ++
        jsLocaleDateString (jsOrStr floatData.last_transmission floatData.profile_date) ++
        "\n\n" ++
      "This float is operating in the " ++ region ++
      ", providing valuable oceanographic data for climate research."
    | none =>
      "I found location data for ARGO floats in the Indian Ocean region. These autonomous instruments drift with ocean currents while collecting temperature, salinity, and biogeochemical data."

/-- Embeds `ChatProcessor.generateComparisonResponse` (netcdf-processor.ts
    lines 921-923); the same fixed text is returned for every input. -/
def generateComparisonResponse (query : String) (analysis : QueryAnalysis)
    (data : List DataRow) : String :=
  "Comparison analysis shows variations in oceanographic parameters across different locations and time periods. The data reveals spatial and temporal patterns that are important for understanding ocean dynamics and climate variability in the Indian Ocean region."

/-- Embeds `ChatProcessor.generateGeneralResponse` (netcdf-processor.ts
    lines 928-941). -/
def generateGeneralResponse (query : String) (analysis : QueryAnalysis)
    (data : List DataRow) : String :=
  if data.length == 0 then
    "I don't have specific data to answer your query. Try asking about:\n\n" ++
    "• Temperature profiles for a specific float\n" ++
    "• Salinity data in the Arabian Sea\n" ++
    "• Oxygen levels at different depths\n" ++
    "• Float locations and trajectories\n\n" ++
    "You can reference specific ARGO float IDs (like 5906468) for detailed information."
  else
    "I found " ++ toString data.length ++ " relevant records in the ARGO database. The data includes temperature, salinity, and biogeochemical measurements from autonomous floats in the Indian Ocean region. This information is valuable for understanding ocean conditions and climate patterns. Would you like me to provide more specific details about any particular aspect?"

/-- Embeds `ChatProcessor.generateResponse` (netcdf-processor.ts lines
    806-829): dispatch on the query-type label, with the general response
    as the default branch. -/
def generateResponse (query : String) (analysis : QueryAnalysis)
    (data : List DataRow) : String :=
  if analysis.type = "temperature_query" then generateTemperatureResponse query analysis data
  else if analysis.type = "salinity_query" then generateSalinityResponse query analysis data
  else if analysis.type = "bgc_query" then generateBGCResponse query analysis data
  else if analysis.type = "float_location_query" then generateLocationResponse query analysis data
  else if analysis.type = "comparison_query" then generateComparisonResponse query analysis data
  else generateGeneralResponse query analysis data

/-- Collects, per query-type label, the fixed text `generateResponse`
    produces when the retrieved-data list is empty. Stated from the
    specification's wording ("the category's fixed no-data message") to be
    compared with the code's behaviour. -/
def emptyDataMessage (queryType : String) : String :=
  if queryType = "temperature_query" then
    "I don't have temperature data available for your query. Please try asking about a specific ARGO float ID or check if the data has been processed."
  else if queryType = "salinity_query" then
    "I don't have salinity data available for your query. Please specify an ARGO float ID or check if the data has been processed."
  else if queryType = "bgc_query" then
    "I don't have biogeochemical data available for your query. BGC data is available from select ARGO floats with biogeochemical sensors."
  else if queryType = "float_location_query" then
    "I don't have location data for the requested float. Please check the float ID or try a different query."
  else if queryType = "comparison_query" then
    "Comparison analysis shows variations in oceanographic parameters across different locations and time periods. The data reveals spatial and temporal patterns that are important for understanding ocean dynamics and climate variability in the Indian Ocean region."
  else
    "I don't have specific data to answer your query. Try asking about:\n\n" ++
    "• Temperature profiles for a specific float\n" ++
    "• Salinity data in the Arabian Sea\n" ++
    "• Oxygen levels at different depths\n" ++
    "• Float locations and trajectories\n\n" ++
    "You can reference specific ARGO float IDs (like 5906468) for detailed information."

/-- Row of the `chat_sessions` table. -/
structure ChatSessionRow where
  id : Nat
  session_id : String
  user_query : String
  ai_response : String
  query_type : String
  execution_time_ms : Nat
  created_at : Nat
deriving Repr, DecidableEq

/-- Replayed chat message (`ChatMessage` of netcdf-processor.ts lines
    570-577); the `Date` timestamp is carried as the stored creation
    time. -/
structure ChatMessage where
  id : String
  role : String
  content : String
  timestamp : Nat
  queryType : String
  executionTime : Nat
deriving Repr, DecidableEq

/-- Creation-time ascending order used by
    `.order("created_at", \x7b ascending: true \x7d)`. -/
def createdAtAsc (a b : ChatSessionRow) : Prop :=
  a.created_at ≤ b.created_at

instance : DecidableRel createdAtAsc :=
  fun a b => inferInstanceAs (Decidable (a.created_at ≤ b.created_at))

instance : IsTotal ChatSessionRow createdAtAsc :=
  ⟨fun a b => Nat.le_total a.created_at b.created_at⟩

instance : IsTrans ChatSessionRow createdAtAsc :=
  ⟨fun _ _ _ h1 h2 => Nat.le_trans h1 h2⟩

/-- User-role message pushed for a stored session row
    (netcdf-processor.ts lines 1006-1013). -/
def userMessage (s : ChatSessionRow) : ChatMessage :=
  ⟨toString s.id ++ "-user", "user", s.user_query, s.created_at,
    s.query_type, s.execution_time_ms⟩

/-- Assistant-role message pushed for a stored session row
    (netcdf-processor.ts lines 1015-1022). -/
def assistantMessage (s : ChatSessionRow) : ChatMessage :=
  ⟨toString s.id ++ "-assistant", "assistant", s.ai_response, s.created_at,
    s.query_type, s.execution_time_ms⟩

/-- Stored rows of one session, in the creation-time ascending order the
    query requests. -/
def sessionRows (store : List ChatSessionRow) (sessionId : String) :
    List ChatSessionRow :=
  List.insertionSort createdAtAsc (store.filter (fun r => r.session_id == sessionId))

/-- Embeds `ChatProcessor.getChatHistory` (netcdf-processor.ts lines
    987-1030): for each stored row of the session, in ascending creation
    time, a user message then an assistant message. The store is passed
    explicitly; the store-error path (which returns `[]`) is a database
    failure with no counterpart in the explicit-store model. -/
def getChatHistory (store : List ChatSessionRow) (sessionId : String) :
    List ChatMessage :=
  (sessionRows store sessionId).flatMap (fun s => [userMessage s, assistantMessage s])

end ChatProcessor

namespace ChatRoute

/-- Parsed JSON body of `POST /api/chat`; a missing field is `none`. -/
structure ChatPostBody where
  query : Option String
  sessionId : Option String

/-- Value returned by `ChatProcessor.processQuery` (netcdf-processor.ts
    lines 579-585). -/
structure QueryResultM where
  response : String
  queryType : String
  executionTime : Nat
  dataUsed : List ChatProcessor.DataRow
  visualizations : List String

/-- JSON body of a response from the chat route. -/
inductive ResponseBody where
  | errorBody (error : String) (details : Option String)
  | chatSuccess (response : String) (queryType : String) (executionTime : Nat)
      (dataUsed : Nat) (visualizations : List String) (timestamp : String)
  | historySuccess (messages : List ChatProcessor.ChatMessage) (count : Nat)

/-- HTTP response: status code plus JSON body. -/
structure ApiResponse where
  status : Nat
  body : ResponseBody

/-- Falsiness of a request field that is a string or absent (`!query`). -/
def jsFalsyField : Option String → Bool
  | none => true
  | some s => s == ""

/-- Embeds `POST` of src/app/api/chat/route.ts (lines 8-41). The
    processing pipeline behind `ChatProcessor.processQuery` reaches the
    database, so it enters the model as an explicit function `process`
    from the two validated fields to either a result or a thrown error
    message; `now` stands for the serialized current time. -/
def POST (body : ChatPostBody)
    (process : String → String → Except String QueryResultM)
    (now : String) : ApiResponse :=
  if jsFalsyField body.query || jsFalsyField body.sessionId then
    ⟨400, ResponseBody.errorBody "Query and session ID are required" none⟩
  else
    match process (body.query.getD "") (body.sessionId.getD "") with
    | Except.ok r =>
      ⟨200, ResponseBody.chatSuccess r.response r.queryType r.executionTime
        r.dataUsed.length r.visualizations now⟩
    | Except.error e =>
      ⟨500, ResponseBody.errorBody "Failed to process chat query" (some e)⟩

/-- Embeds `GET` of src/app/api/chat/route.ts (lines 46-68): absent or
    empty `sessionId` parameter gives 400, otherwise the replayed history
    with its count. -/
def GET (sessionId : Option String)
    (store : List ChatProcessor.ChatSessionRow) : ApiResponse :=
  if jsFalsyField sessionId then
    ⟨400, ResponseBody.errorBody "Session ID parameter is required" none⟩
  else
    let history := ChatProcessor.getChatHistory store (sessionId.getD "")
    ⟨200, ResponseBody.historySuccess history history.length⟩

end ChatRoute

section RegionLookup

/-- C1 (corrected): the ocean-region lookup — identical in the Embedding
    Stub and the Chat Processor — returns "Arabian Sea" for latitude 15,
    longitude 68; for latitude -20, longitude 60 it returns "Indian Ocean"
    via the second range branch, not the default fallback string
    "Indian Ocean region" the claim names. -/
theorem getOceanRegion_lookup_amended :
    ChatProcessor.getOceanRegion 15 68 = "Arabian Sea" ∧
    VectorEmbeddingsGenerator.getOceanRegion 15 68 = "Arabian Sea" ∧
    ChatProcessor.getOceanRegion (-20) 60 = "Indian Ocean" ∧
    VectorEmbeddingsGenerator.getOceanRegion (-20) 60 = "Indian Ocean" := by
  refine ⟨?_, ?_, ?_, ?_⟩ <;> decide

/-- C1 (counterexample to the claim as stated): at latitude -20,
    longitude 60 the lookup does not return the default fallback string. -/
theorem getOceanRegion_claim_counterexample :
    ChatProcessor.getOceanRegion (-20) 60 ≠ "Indian Ocean region" := by
  decide

end RegionLookup

section Classifier

/-- C3: any query whose lowercased text contains "temperature" anywhere is
    classified `temperature_query`; the temperature rule is tested first,
    so no co-occurring keyword can override it. -/
theorem analyzeQuery_temperature_precedence (q : String)
    (h : jsIncludes (jsToLowerCase q) "temperature" = true) :
    (ChatProcessor.analyzeQuery q).type = "temperature_query" := by
  unfold ChatProcessor.analyzeQuery
  simp [h]

/-- Witness for C3 at a query that also contains "compare" and
    "salinity". -/
theorem analyzeQuery_temperature_precedence_witness :
    (ChatProcessor.analyzeQuery "compare temperature vs salinity").type =
      "temperature_query" :=
  analyzeQuery_temperature_precedence "compare temperature vs salinity" (by decide)

/-- C10: a query whose lowercased text avoids the temperature and salinity
    keywords but contains the two-character sequence "ph" anywhere — even
    inside an unrelated word — is classified `bgc_query`, because the BGC
    rule tests raw substring containment with no word boundaries. -/
theorem analyzeQuery_ph_substring_bgc (q : String)
    (h1 : jsIncludes (jsToLowerCase q) "temperature" = false)
    (h2 : jsIncludes (jsToLowerCase q) "temp" = false)
    (h3 : jsIncludes (jsToLowerCase q) "salinity" = false)
    (h4 : jsIncludes (jsToLowerCase q) "salt" = false)
    (h5 : jsIncludes (jsToLowerCase q) "ph" = true) :
    (ChatProcessor.analyzeQuery q).type = "bgc_query" := by
  unfold ChatProcessor.analyzeQuery
  simp [h1, h2, h3, h4, h5]

/-- Witness for C10 at "show graph", where "ph" occurs only inside the
    word "graph". -/
theorem analyzeQuery_ph_substring_bgc_witness :
    (ChatProcessor.analyzeQuery "show graph").type = "bgc_query" :=
  analyzeQuery_ph_substring_bgc "show graph"
    (by decide) (by decide) (by decide) (by decide) (by decide)

/-- C6: parameter extraction yields floatId "5906468" both for the
    `float N` pattern and for the bare 7-digit token. -/
theorem extractParameters_floatId_cases :
    (ChatProcessor.extractParameters "float 5906468").floatId = some "5906468" ∧
    (ChatProcessor.extractParameters "5906468").floatId = some "5906468" := by
  refine ⟨?_, ?_⟩ <;> decide

/-- C7: parameter extraction on "at 500m depth" reads the depth 500 from
    the digits-then-unit pattern. -/
theorem extractParameters_depth_units :
    (ChatProcessor.extractParameters "at 500m depth").depth = some 500 := by
  decide

end Classifier

section ResponseGenerator

/-- Case split on the query-type label produced by the classifier: it is
    always one of the six fixed labels. -/
lemma analyzeQuery_type_cases (q : String) :
    (ChatProcessor.analyzeQuery q).type = "temperature_query" ∨
    (ChatProcessor.analyzeQuery q).type = "salinity_query" ∨
    (ChatProcessor.analyzeQuery q).type = "bgc_query" ∨
    (ChatProcessor.analyzeQuery q).type = "float_location_query" ∨
    (ChatProcessor.analyzeQuery q).type = "comparison_query" ∨
    (ChatProcessor.analyzeQuery q).type = "general_query" := by
  simp only [ChatProcessor.analyzeQuery]
  split
  · exact Or.inl rfl
  split
  · exact Or.inr (Or.inl rfl)
  split
  · exact Or.inr (Or.inr (Or.inl rfl))
  split
  · exact Or.inr (Or.inr (Or.inr (Or.inl rfl)))
  split
  · exact Or.inr (Or.inr (Or.inr (Or.inr (Or.inl rfl))))
  · exact Or.inr (Or.inr (Or.inr (Or.inr (Or.inr rfl))))

/-- C2: for every query-type label the classifier can produce, the
    response generator applied to an empty retrieved-data list returns
    that category's fixed no-data text verbatim. -/
theorem generateResponse_empty_data (q query : String)
    (analysis : ChatProcessor.QueryAnalysis)
    (h : analysis.type = (ChatProcessor.analyzeQuery q).type) :
    ChatProcessor.generateResponse query analysis [] =
      ChatProcessor.emptyDataMessage analysis.type := by
  rcases analyzeQuery_type_cases q with ht | ht | ht | ht | ht | ht <;>
    rw [ht] at h <;>
    (unfold ChatProcessor.generateResponse ChatProcessor.emptyDataMessage; rw [h]) <;>
    rfl

/-- Witness for C2 at the general-query label. -/
theorem generateResponse_empty_data_witness :
    ChatProcessor.generateResponse "hello" (ChatProcessor.analyzeQuery "hello") [] =
      ChatProcessor.emptyDataMessage (ChatProcessor.analyzeQuery "hello").type :=
  generateResponse_empty_data "hello" "hello" (ChatProcessor.analyzeQuery "hello") rfl

end ResponseGenerator

section SimilaritySearch

/-- C5: the "similarity search" result does not depend on the query
    argument; it is the recency-sorted prefix of the store, of length
    `min limit store.length`, the limit defaulting to 5, and everything it
    omits was created no later than everything it returns. -/
theorem searchSimilarContent_query_independent
    (store : List VectorEmbeddingsGenerator.EmbeddingRow) (q1 q2 : String)
    (limit : Nat) :
    VectorEmbeddingsGenerator.searchSimilarContent store q1 limit =
      VectorEmbeddingsGenerator.searchSimilarContent store q2 limit ∧
    VectorEmbeddingsGenerator.searchSimilarContent store q1 =
      VectorEmbeddingsGenerator.searchSimilarContent store q1 5 ∧
    (VectorEmbeddingsGenerator.searchSimilarContent store q1 limit).length =
      min limit store.length ∧
    List.Sorted VectorEmbeddingsGenerator.recencyGE
      (VectorEmbeddingsGenerator.searchSimilarContent store q1 limit) ∧
    ∃ rest,
      store.Perm (VectorEmbeddingsGenerator.searchSimilarContent store q1 limit ++ rest) ∧
      ∀ x ∈ VectorEmbeddingsGenerator.searchSimilarContent store q1 limit, ∀ y ∈ rest,
        y.created_at ≤ x.created_at := by
  refine ⟨rfl, rfl, ?_, ?_, ?_⟩
  · unfold VectorEmbeddingsGenerator.searchSimilarContent
    rw [List.length_take, List.length_insertionSort]
  · exact List.Pairwise.sublist (List.take_sublist _ _)
      (List.sorted_insertionSort VectorEmbeddingsGenerator.recencyGE store)
  · refine ⟨(List.insertionSort VectorEmbeddingsGenerator.recencyGE store).drop limit, ?_, ?_⟩
    · have hperm :=
        (List.perm_insertionSort VectorEmbeddingsGenerator.recencyGE store).symm
      unfold VectorEmbeddingsGenerator.searchSimilarContent
      rw [List.take_append_drop]
      exact hperm
    · intro x hx y hy
      have hs := List.sorted_insertionSort VectorEmbeddingsGenerator.recencyGE store
      have h2 : List.Pairwise VectorEmbeddingsGenerator.recencyGE
          ((List.insertionSort VectorEmbeddingsGenerator.recencyGE store).take limit ++
            (List.insertionSort VectorEmbeddingsGenerator.recencyGE store).drop limit) := by
        rw [List.take_append_drop]
        exact hs
      exact (List.pairwise_append.mp h2).2.2 x hx y hy

/-- Witness for C5 at a two-row store and two distinct query strings. -/
theorem searchSimilarContent_query_independent_witness :
    VectorEmbeddingsGenerator.searchSimilarContent
        [⟨"profile", "1", "alpha", 1⟩, ⟨"measurement", "2", "beta", 2⟩] "temperature" 1 =
      VectorEmbeddingsGenerator.searchSimilarContent
        [⟨"profile", "1", "alpha", 1⟩, ⟨"measurement", "2", "beta", 2⟩] "salinity" 1 :=
  (searchSimilarContent_query_independent
    [⟨"profile", "1", "alpha", 1⟩, ⟨"measurement", "2", "beta", 2⟩]
    "temperature" "salinity" 1).1

end SimilaritySearch

section ChatRouteSpec

/-- C8: `POST /api/chat` returns 400 with the fixed error object whenever
    the query or session-id field is missing or empty — independently of
    the processing pipeline, which is never consulted; when both fields
    are present and processing succeeds it returns 200 with the success
    payload (response, query type, execution time, data-row count,
    visualizations); and a thrown failure yields 500 with the generic
    error plus the thrown detail string. -/
theorem chatRoute_POST_spec (body : ChatRoute.ChatPostBody)
    (process : String → String → Except String ChatRoute.QueryResultM)
    (now : String) :
    ((ChatRoute.jsFalsyField body.query || ChatRoute.jsFalsyField body.sessionId) = true →
      ∀ process2, ChatRoute.POST body process now = ChatRoute.POST body process2 now ∧
        ChatRoute.POST body process now =
          ⟨400, ChatRoute.ResponseBody.errorBody "Query and session ID are required" none⟩) ∧
    ((ChatRoute.jsFalsyField body.query || ChatRoute.jsFalsyField body.sessionId) = false →
      (∀ r, process (body.query.getD "") (body.sessionId.getD "") = Except.ok r →
        ChatRoute.POST body process now =
          ⟨200, ChatRoute.ResponseBody.chatSuccess r.response r.queryType r.executionTime
            r.dataUsed.length r.visualizations now⟩) ∧
      (∀ e, process (body.query.getD "") (body.sessionId.getD "") = Except.error e →
        ChatRoute.POST body process now =
          ⟨500, ChatRoute.ResponseBody.errorBody "Failed to process chat query" (some e)⟩)) := by
  refine ⟨fun h process2 => ⟨?_, ?_⟩, fun h => ⟨fun r hr => ?_, fun e he => ?_⟩⟩
  · simp [ChatRoute.POST, h]
  · simp [ChatRoute.POST, h]
  · simp [ChatRoute.POST, h, hr]
  · simp [ChatRoute.POST, h, he]

/-- Witness for C8 on a well-formed body whose processing succeeds. -/
theorem chatRoute_POST_spec_witness :
    ChatRoute.POST ⟨some "show temperature", some "s1"⟩
        (fun _ _ => Except.ok ⟨"ok", "temperature_query", 7, [], ["temperature_profile"]⟩)
        "2026-10-11" =
      ⟨200, ChatRoute.ResponseBody.chatSuccess "ok" "temperature_query" 7 0
        ["temperature_profile"] "2026-10-11"⟩ :=
  ((chatRoute_POST_spec ⟨some "show temperature", some "s1"⟩
      (fun _ _ => Except.ok ⟨"ok", "temperature_query", 7, [], ["temperature_profile"]⟩)
      "2026-10-11").2 (by decide)).1
    ⟨"ok", "temperature_query", 7, [], ["temperature_profile"]⟩ rfl

end ChatRouteSpec

section ChatHistory

/-- Length of a two-message-per-row expansion. -/
lemma flatMap_pair_length {α β : Type} (f g : α → β) (l : List α) :
    (l.flatMap fun s => [f s, g s]).length = 2 * l.length := by
  induction l with
  | nil => rfl
  | cons a t ih =>
    simp only [List.flatMap_cons, List.cons_append, List.nil_append,
      List.length_cons, ih, List.length_append]
    omega

/-- Indexing into a two-message-per-row expansion: the pair generated by
    the k-th row sits at positions 2k and 2k+1. -/
lemma flatMap_pair_getElem {α β : Type} (f g : α → β) (l : List α) (k : Nat)
    (r : α) (h : l[k]? = some r) :
    (l.flatMap fun s => [f s, g s])[2 * k]? = some (f r) ∧
    (l.flatMap fun s => [f s, g s])[2 * k + 1]? = some (g r) := by
  induction l generalizing k with
  | nil => simp at h
  | cons a t ih =>
    cases k with
    | zero =>
      have ha : a = r := by simpa using h
      subst ha
      refine ⟨?_, ?_⟩ <;> simp [List.flatMap_cons]
    | succ k =>
      have h2 : t[k]? = some r := by simpa using h
      obtain ⟨h3, h4⟩ := ih k h2
      have e1 : 2 * (k + 1) = 2 * k + 1 + 1 := by ring
      have e2 : 2 * (k + 1) + 1 = 2 * k + 1 + 1 + 1 := by ring
      refine ⟨?_, ?_⟩
      · rw [e1]
        simp only [List.flatMap_cons, List.cons_append, List.nil_append,
          List.getElem?_cons_succ]
        exact h3
      · rw [e2]
        simp only [List.flatMap_cons, List.cons_append, List.nil_append,
          List.getElem?_cons_succ]
        exact h4

/-- Every replayed message carries the creation time of the stored row it
    came from. -/
lemma mem_history_timestamp (m : ChatProcessor.ChatMessage)
    (rows : List ChatProcessor.ChatSessionRow)
    (h : m ∈ rows.flatMap fun s =>
      [ChatProcessor.userMessage s, ChatProcessor.assistantMessage s]) :
    ∃ s ∈ rows, m.timestamp = s.created_at := by
  rw [List.mem_flatMap] at h
  obtain ⟨s, hs, hm⟩ := h
  refine ⟨s, hs, ?_⟩
  have hm2 : m = ChatProcessor.userMessage s ∨ m = ChatProcessor.assistantMessage s := by
    simpa using hm
  rcases hm2 with hm2 | hm2 <;> (subst hm2; rfl)

/-- Creation-time-sorted rows replay as a timestamp-sorted message list. -/
lemma history_pairwise (rows : List ChatProcessor.ChatSessionRow)
    (h : List.Pairwise ChatProcessor.createdAtAsc rows) :
    List.Pairwise (fun m1 m2 => m1.timestamp ≤ m2.timestamp)
      (rows.flatMap fun s =>
        [ChatProcessor.userMessage s, ChatProcessor.assistantMessage s]) := by
  induction rows with
  | nil => simp
  | cons a t ih =>
    cases h with
    | cons ha ht =>
      simp only [List.flatMap_cons, List.cons_append, List.nil_append]
      refine List.Pairwise.cons ?_ (List.Pairwise.cons ?_ (ih ht))
      · intro m hm
        have hm2 : m = ChatProcessor.assistantMessage a ∨
            m ∈ t.flatMap fun s =>
              [ChatProcessor.userMessage s, ChatProcessor.assistantMessage s] := by
          simpa using hm
        rcases hm2 with hm2 | hm2
        · subst hm2; exact Nat.le_refl _
        · obtain ⟨s, hs, he⟩ := mem_history_timestamp m t hm2
          rw [he]
          exact ha s hs
      · intro m hm
        obtain ⟨s, hs, he⟩ := mem_history_timestamp m t hm
        rw [he]
        exact ha s hs

/-- C9: the replayed history of a session holds exactly two messages per
    stored row — the user message then the assistant message of the k-th
    row (in ascending creation time) at positions 2k and 2k+1 — its
    timestamps are ascending, and `GET /api/chat` reports a count equal to
    twice the number of stored rows of the session. -/
theorem getChatHistory_message_pairs (store : List ChatProcessor.ChatSessionRow)
    (sid : String) :
    (ChatProcessor.getChatHistory store sid).length =
      2 * (store.filter (fun r => r.session_id == sid)).length ∧
    (∀ k r, (ChatProcessor.sessionRows store sid)[k]? = some r →
      (ChatProcessor.getChatHistory store sid)[2 * k]? =
        some (ChatProcessor.userMessage r) ∧
      (ChatProcessor.getChatHistory store sid)[2 * k + 1]? =
        some (ChatProcessor.assistantMessage r)) ∧
    List.Pairwise (fun m1 m2 => m1.timestamp ≤ m2.timestamp)
      (ChatProcessor.getChatHistory store sid) ∧
    (sid ≠ "" → ChatRoute.GET (some sid) store =
      ⟨200, ChatRoute.ResponseBody.historySuccess
        (ChatProcessor.getChatHistory store sid)
        (2 * (store.filter (fun r => r.session_id == sid)).length)⟩) := by
  have hlen : (ChatProcessor.getChatHistory store sid).length =
      2 * (store.filter (fun r => r.session_id == sid)).length := by
    unfold ChatProcessor.getChatHistory
    rw [flatMap_pair_length]
    unfold ChatProcessor.sessionRows
    rw [List.length_insertionSort]
  refine ⟨hlen, ?_, ?_, ?_⟩
  · intro k r h
    exact flatMap_pair_getElem ChatProcessor.userMessage
      ChatProcessor.assistantMessage (ChatProcessor.sessionRows store sid) k r h
  · exact history_pairwise (ChatProcessor.sessionRows store sid)
      (List.sorted_insertionSort ChatProcessor.createdAtAsc _)
  · intro hs
    have hfalse : ChatRoute.jsFalsyField (some sid) = false := by
      simp [ChatRoute.jsFalsyField, hs]
    simp [ChatRoute.GET, hfalse, hlen]

end ChatHistory

section ChatHistoryWitness

/-- Witness for C9 on a one-row store: the single stored row replays as
    its user message at position 0 and its assistant message at
    position 1. -/
theorem getChatHistory_message_pairs_witness :
    (ChatProcessor.getChatHistory
        [⟨1, "s", "hi", "hello", "general_query", 4, 9⟩] "s")[0]? =
      some (ChatProcessor.userMessage ⟨1, "s", "hi", "hello", "general_query", 4, 9⟩) ∧
    (ChatProcessor.getChatHistory
        [⟨1, "s", "hi", "hello", "general_query", 4, 9⟩] "s")[1]? =
      some (ChatProcessor.assistantMessage ⟨1, "s", "hi", "hello", "general_query", 4, 9⟩) := by
  have h := ((getChatHistory_message_pairs
      [⟨1, "s", "hi", "hello", "general_query", 4, 9⟩] "s").2.1) 0
    ⟨1, "s", "hi", "hello", "general_query", 4, 9⟩ rfl
  simpa using h

end ChatHistoryWitness

section FilenamePattern

/-- Splitting a list at the first failure of `p`: a block satisfying `p`
    followed by an element refuting `p` is exactly where `takeWhile` and
    `dropWhile` cut. -/
lemma takeWhile_all_append (p : Char → Bool) (d : List Char) (x : Char)
    (r : List Char) (hd : ∀ c ∈ d, p c = true) (hx : p x = false) :
    (d ++ x :: r).takeWhile p = d ∧ (d ++ x :: r).dropWhile p = x :: r := by
  induction d with
  | nil => simp [List.takeWhile_cons, List.dropWhile_cons, hx]
  | cons a t ih =>
    have ha : p a = true := hd a (List.mem_cons_self a t)
    have ht : ∀ c ∈ t, p c = true := fun c hc => hd c (List.mem_cons_of_mem a hc)
    obtain ⟨h1, h2⟩ := ih ht
    simp [List.takeWhile_cons, List.dropWhile_cons, ha, h1, h2]

/-- Completeness of the per-position filename matcher: at a position that
    starts a decomposition witnessing the pattern, it returns exactly the
    two digit groups of that decomposition. -/
lemma matchNetCDFAt_complete (d1 d2 suf : List Char)
    (h1 : d1 ≠ []) (h2 : ∀ c ∈ d1, c.isDigit = true)
    (h3 : d2 ≠ []) (h4 : ∀ c ∈ d2, c.isDigit = true) :
    NetCDFProcessor.matchNetCDFAt
        ('R' :: (d1 ++ '_' :: (d2 ++ '.' :: 'n' :: 'c' :: suf))) =
      some (d1, d2) := by
  have e1 := takeWhile_all_append Char.isDigit d1 '_'
    (d2 ++ '.' :: 'n' :: 'c' :: suf) h2 (by decide)
  have e2 := takeWhile_all_append Char.isDigit d2 '.' ('n' :: 'c' :: suf) h4 (by decide)
  simp [NetCDFProcessor.matchNetCDFAt, e1.1, e1.2, e2.1, e2.2, h1, h3]

/-- If the per-position matcher succeeds on some suffix of the scanned
    list, the leftmost scan succeeds on the whole list. -/
lemma scanFirst_complete {α : Type} (f : List Char → Option α) (pre t : List Char)
    (r : α) (h : f t = some r) : ∃ r2, scanFirst f (pre ++ t) = some r2 := by
  induction pre with
  | nil =>
    cases t with
    | nil => exact ⟨r, by simpa [scanFirst] using h⟩
    | cons c rest => exact ⟨r, by simp [scanFirst, h]⟩
  | cons c pre ih =>
    obtain ⟨r2, hr2⟩ := ih
    cases hf : f (c :: (pre ++ t)) with
    | some r3 => exact ⟨r3, by simp [scanFirst, hf]⟩
    | none => exact ⟨r2, by simp [scanFirst, hf, hr2]⟩

/-- Soundness of the leftmost scan: a successful scan exhibits a suffix on
    which the per-position matcher succeeds with the same result. -/
lemma scanFirst_sound {α : Type} (f : List Char → Option α) (l : List Char)
    (r : α) (h : scanFirst f l = some r) :
    ∃ pre t, l = pre ++ t ∧ f t = some r := by
  induction l with
  | nil => exact ⟨[], [], rfl, by simpa [scanFirst] using h⟩
  | cons c rest ih =>
    cases hf : f (c :: rest) with
    | some r2 =>
      have hr : r2 = r := by
        have h2 := h
        simp only [scanFirst, hf] at h2
        exact Option.some.inj h2
      exact ⟨[], c :: rest, rfl, by rw [hf, hr]⟩
    | none =>
      have h2 : scanFirst f rest = some r := by
        have h3 := h
        simpa only [scanFirst, hf] using h3
      obtain ⟨pre, t, he, hf2⟩ := ih h2
      exact ⟨c :: pre, t, by rw [List.cons_append, he], hf2⟩

/-- Soundness of the per-position filename matcher: success reconstructs a
    decomposition of the position's suffix into the literal `R`, the first
    digit group, `_`, the second digit group, and `.nc`. -/
lemma matchNetCDFAt_sound (t d1 d2 : List Char)
    (h : NetCDFProcessor.matchNetCDFAt t = some (d1, d2)) :
    ∃ suf, t = 'R' :: (d1 ++ '_' :: (d2 ++ '.' :: 'n' :: 'c' :: suf)) ∧
      d1 ≠ [] ∧ d2 ≠ [] ∧
      (∀ c ∈ d1, c.isDigit = true) ∧ (∀ c ∈ d2, c.isDigit = true) := by
  cases t with
  | nil => simp [NetCDFProcessor.matchNetCDFAt] at h
  | cons c rest =>
    by_cases hc : c = 'R'
    case neg => simp [NetCDFProcessor.matchNetCDFAt, hc] at h
    subst hc
    by_cases hd1 : rest.takeWhile Char.isDigit = []
    · simp [NetCDFProcessor.matchNetCDFAt, hd1] at h
    cases hrest1 : rest.dropWhile Char.isDigit with
    | nil => simp [NetCDFProcessor.matchNetCDFAt, hd1, hrest1] at h
    | cons c1 rest2 =>
      by_cases hc1 : c1 = '_'
      case neg => simp [NetCDFProcessor.matchNetCDFAt, hd1, hrest1, hc1] at h
      subst hc1
      by_cases hd2 : rest2.takeWhile Char.isDigit = []
      · simp [NetCDFProcessor.matchNetCDFAt, hd1, hrest1, hd2] at h
      cases hrest3 : rest2.dropWhile Char.isDigit with
      | nil => simp [NetCDFProcessor.matchNetCDFAt, hd1, hrest1, hd2, hrest3] at h
      | cons a rest4 =>
        cases rest4 with
        | nil => simp [NetCDFProcessor.matchNetCDFAt, hd1, hrest1, hd2, hrest3] at h
        | cons b rest5 =>
          cases rest5 with
          | nil => simp [NetCDFProcessor.matchNetCDFAt, hd1, hrest1, hd2, hrest3] at h
          | cons c2 suf =>
            by_cases habc : a = '.' ∧ b = 'n' ∧ c2 = 'c'
            case neg =>
              simp [NetCDFProcessor.matchNetCDFAt, hd1, hrest1, hd2, hrest3, habc] at h
            obtain ⟨ha, hb, hcc⟩ := habc
            subst ha; subst hb; subst hcc
            have hpair : rest.takeWhile Char.isDigit = d1 ∧
                rest2.takeWhile Char.isDigit = d2 := by
              have h2 := h
              simp [NetCDFProcessor.matchNetCDFAt, hd1, hrest1, hd2, hrest3] at h2
              exact h2
            obtain ⟨hg1, hg2⟩ := hpair
            refine ⟨suf, ?_, ?_, ?_, ?_, ?_⟩
            · have hr : rest = d1 ++ '_' :: rest2 := by
                have := List.takeWhile_append_dropWhile Char.isDigit rest
                rw [hg1, hrest1] at this
                exact this.symm
              have hr2 : rest2 = d2 ++ '.' :: 'n' :: 'c' :: suf := by
                have := List.takeWhile_append_dropWhile Char.isDigit rest2
                rw [hg2, hrest3] at this
                exact this.symm
              rw [hr, hr2]
            · rw [← hg1]; exact hd1
            · rw [← hg2]; exact hd2
            · intro ch hch
              exact List.mem_takeWhile_imp (hg1 ▸ hch)
            · intro ch hch
              exact List.mem_takeWhile_imp (hg2 ▸ hch)

/-- C4: `processNetCDFFile` succeeds exactly on filenames matching the
    `R<digits>_<digits>.nc` pattern (unanchored, as `String.match` is); on
    success the float id is the first digit group of a matching
    decomposition and the cycle number is the second digit group parsed as
    an integer; on failure the thrown message reports the invalid filename
    format. -/
theorem processNetCDFFile_filename_spec (fn : String) :
    (NetCDFProcessor.NetCDFNamePattern fn.toList ↔
      ∃ p, NetCDFProcessor.processNetCDFFile fn = Except.ok p) ∧
    (∀ f c, NetCDFProcessor.processNetCDFFile fn = Except.ok (f, c) →
      ∃ pre d2 suf,
        fn.toList = pre ++ 'R' :: (f.toList ++ '_' :: (d2 ++ '.' :: 'n' :: 'c' :: suf)) ∧
        f.toList ≠ [] ∧ d2 ≠ [] ∧
        (∀ ch ∈ f.toList, ch.isDigit = true) ∧ (∀ ch ∈ d2, ch.isDigit = true) ∧
        c = parseDigits d2) ∧
    (¬ NetCDFProcessor.NetCDFNamePattern fn.toList →
      NetCDFProcessor.processNetCDFFile fn =
        Except.error ("Invalid NetCDF filename format: " ++ fn)) := by
  have hsound : ∀ a b, scanFirst NetCDFProcessor.matchNetCDFAt fn.toList = some (a, b) →
      NetCDFProcessor.NetCDFNamePattern fn.toList := by
    intro a b hscan
    obtain ⟨pre, t, he, hf⟩ := scanFirst_sound _ _ _ hscan
    obtain ⟨suf, ht, h1, h2, h3, h4⟩ := matchNetCDFAt_sound t a b hf
    exact ⟨pre, a, b, suf, by rw [he, ht], h1, h2, h3, h4⟩
  refine ⟨⟨?_, ?_⟩, ?_, ?_⟩
  · rintro ⟨pre, d1, d2, suf, he, h1, h2, h3, h4⟩
    have hm := matchNetCDFAt_complete d1 d2 suf h1 h3 h2 h4
    obtain ⟨r2, hr2⟩ := scanFirst_complete NetCDFProcessor.matchNetCDFAt pre _ _ hm
    obtain ⟨ra, rb⟩ := r2
    refine ⟨(String.mk ra, parseDigits rb), ?_⟩
    unfold NetCDFProcessor.processNetCDFFile
    rw [he, hr2]
  · rintro ⟨p, hp⟩
    unfold NetCDFProcessor.processNetCDFFile at hp
    cases hscan : scanFirst NetCDFProcessor.matchNetCDFAt fn.toList with
    | none => rw [hscan] at hp; simp at hp
    | some r =>
      obtain ⟨a, b⟩ := r
      exact hsound a b hscan
  · intro f c hfc
    unfold NetCDFProcessor.processNetCDFFile at hfc
    cases hscan : scanFirst NetCDFProcessor.matchNetCDFAt fn.toList with
    | none => rw [hscan] at hfc; simp at hfc
    | some r =>
      obtain ⟨a, b⟩ := r
      rw [hscan] at hfc
      simp only [Except.ok.injEq, Prod.mk.injEq] at hfc
      obtain ⟨hfa, hcb⟩ := hfc
      obtain ⟨pre, t, he, hf⟩ := scanFirst_sound _ _ _ hscan
      obtain ⟨suf, ht, h1, h2, h3, h4⟩ := matchNetCDFAt_sound t a b hf
      have hfl : f.toList = a := by rw [← hfa]; rfl
      refine ⟨pre, b, suf, ?_, ?_, h2, ?_, ?_, hcb.symm⟩
      · rw [he, ht, hfl]
      · rw [hfl]; exact h1
      · rw [hfl]; exact h3
      · exact h4
  · intro hnp
    unfold NetCDFProcessor.processNetCDFFile
    cases hscan : scanFirst NetCDFProcessor.matchNetCDFAt fn.toList with
    | none => rfl
    | some r =>
      obtain ⟨a, b⟩ := r
      exact absurd (hsound a b hscan) hnp

/-- Witness for C4: "R5906468_245.nc" matches the pattern and is parsed
    into its two digit groups. -/
theorem processNetCDFFile_filename_spec_witness :
    NetCDFProcessor.NetCDFNamePattern ("R5906468_245.nc".toList) ∧
    (∃ p, NetCDFProcessor.processNetCDFFile "R5906468_245.nc" = Except.ok p) := by
  have hp : NetCDFProcessor.NetCDFNamePattern ("R5906468_245.nc".toList) :=
    ⟨[], ['5', '9', '0', '6', '4', '6', '8'], ['2', '4', '5'], [],
      by decide, by decide, by decide, by decide, by decide⟩
  exact ⟨hp, (processNetCDFFile_filename_spec "R5906468_245.nc").1.mp hp⟩

end FilenamePattern
